import Mathlib

/-!
Verification of the gemini-mcp server (`src/gemini_mcp/__init__.py`).

The file shallowly embeds the tool-dispatch and process-execution engine:

* `Value` models the JSON-ish Python values that appear in a tool call's
  argument map (`dict[str, Any]`): a string or a list of strings, which is
  what every registered tool's schema admits.
* `World` packages the ambient effects the engine consumes: the current
  working directory (`os.getcwd()`), the outcome of spawning the
  availability probe (`which gemini`), the outcome of spawning an
  arbitrary main command in a given directory, and the filesystem's
  directory predicate (`os.path.isdir`).
* `run_gemini_command` embeds the executor of the same name; alongside the
  `(stdout, stderr, returncode)` triple it returns the list of commands
  that were actually spawned, so that "the main command is never spawned"
  is a statement about the result.
* `buildCommand` embeds the per-tool first half of `handle_call_tool`
  (argument extraction and command-vector assembly, duplicated per tool in
  the Python source); `handle_call_tool` composes it with
  `run_gemini_command` and the uniform exit-code translation that every
  branch of the Python function repeats verbatim.  A Python `KeyError` /
  `TypeError` escaping the handler is an `Except.error`.
* `handle_get_prompt` embeds the prompt catalog, including the
  `json.dumps` rendering of the embedded tool arguments.
-/

/-- A Python value admissible in a tool-call argument map: every registered
tool's input schema takes strings and arrays of strings. -/
inductive Value where
  | str : String → Value
  | list : List String → Value
deriving DecidableEq

/-- Outcome of one subprocess spawn: either it ran to completion with
captured stdout, stderr and return code, or spawning raised an exception
carrying a message. -/
inductive SpawnOutcome where
  | ok : String → String → Int → SpawnOutcome
  | exn : String → SpawnOutcome
deriving DecidableEq

/-- The ambient effects consumed by the engine: `os.getcwd()`, the result
of spawning `which gemini`, the result of spawning a main command in a
given working directory, and `os.path.isdir`. -/
structure World where
  cwd : String
  probe : SpawnOutcome
  exec : List String → String → SpawnOutcome
  isDir : String → Bool

/-- Python `arguments[key]`: a missing key raises `KeyError`. -/
def getItem (args : String → Option Value) (key : String) : Except String Value :=
  match args key with
  | some v => Except.ok v
  | none => Except.error ("KeyError: " ++ key)

/-- Python iteration `for x in v`: iterating a list yields its elements;
iterating a string yields its characters as one-character strings. -/
def iterStrings : Value → List String
  | Value.str s => s.data.map fun c => String.mk [c]
  | Value.list ss => ss

/-- Python `s + v` for a string `s`: concatenation when `v` is a string,
`TypeError` otherwise. -/
def pyAddStr (s : String) : Value → Except String String
  | Value.str t => Except.ok (s ++ t)
  | Value.list _ => Except.error "TypeError: can only concatenate str (not \"list\") to str"

/-- Python `repr` of a string (as used by `str` on a list of strings):
quoted with apostrophes, escaping backslash, apostrophe and the common
control characters. -/
def pyReprStr (s : String) : String :=
  String.mk [Char.ofNat 39] ++
  String.join (s.data.map fun c =>
    if c = '\\' then "\\\\"
    else if c = Char.ofNat 39 then "\\" ++ String.mk [Char.ofNat 39]
    else if c = '\n' then "\\n"
    else if c = '\r' then "\\r"
    else if c = '\t' then "\\t"
    else String.mk [c]) ++
  String.mk [Char.ofNat 39]

/-- Python `str(v)` as used in f-string interpolation. -/
def pyStrOf : Value → String
  | Value.str s => s
  | Value.list ss => "[" ++ String.intercalate ", " (ss.map pyReprStr) ++ "]"

/-- Python truthiness of an optional value (`None`, `""` and `[]` are
falsy). -/
def pyTruthyOpt : Option Value → Bool
  | none => false
  | some (Value.str s) => s ≠ ""
  | some (Value.list ss) => ss ≠ []

/-- Python truthiness of an optional string. -/
def pyTruthyStrOpt : Option String → Bool
  | none => false
  | some s => s ≠ ""

/-- `arguments.get("working_directory")`, coerced to the optional string
the executor receives.  (A non-string value here is not modelled: Python
would only fault later, inside the executor's guarded spawn.) -/
def getWd (args : String → Option Value) : Option String :=
  match args "working_directory" with
  | some (Value.str s) => some s
  | some (Value.list _) => none
  | none => none

/-- `cwd = working_directory if working_directory else os.getcwd()`:
an absent or empty (falsy) override falls back to the current
directory. -/
def resolveCwd (current : String) : Option String → String
  | some s => if s = "" then current else s
  | none => current

/-- Embedding of `run_gemini_command` (`__init__.py` lines 380-411): probe
for the gemini binary with `which gemini`; on nonzero probe exit return a
synthetic not-found failure; otherwise spawn the main command and return
its captured output; any exception from either spawn is caught and turned
into a unit-exit-code result.  The second component records the commands
actually spawned, in order. -/
def run_gemini_command (w : World) (args : List String) (working_directory : Option String) :
    (String × String × Int) × List (List String) :=
  let cwd := resolveCwd w.cwd working_directory
  match w.probe with
  | SpawnOutcome.exn e =>
      (("", "Error running gemini command: " ++ e, 1), [["which", "gemini"]])
  | SpawnOutcome.ok _ _ prc =>
      if prc ≠ 0 then
        (("", "Gemini CLI not found. Please install gemini CLI first.", 1), [["which", "gemini"]])
      else
        match w.exec args cwd with
        | SpawnOutcome.exn e =>
            (("", "Error running gemini command: " ++ e, 1), [["which", "gemini"], args])
        | SpawnOutcome.ok out err rc =>
            ((out, err, rc), [["which", "gemini"], args])

/-- One entry of the tool registry: the tool's name, description and the
`required` list of its input schema (`handle_list_tools`,
`__init__.py` lines 106-249). -/
structure ToolDef where
  name : String
  description : String
  required : List String
deriving DecidableEq

/-- The six registered tools, in registration order, with the `required`
lists of their input schemas. -/
def toolRegistry : List ToolDef :=
  [⟨"gemini_analyze_files", "Analyze specific files using Gemini CLI with @ syntax",
      ["files", "prompt"]⟩,
   ⟨"gemini_analyze_directories", "Analyze entire directories using Gemini CLI with @ syntax",
      ["directories", "prompt"]⟩,
   ⟨"gemini_analyze_all_files", "Analyze all files in current directory using Gemini CLI --all_files flag",
      ["prompt"]⟩,
   ⟨"gemini_verify_implementation", "Verify if specific features/patterns are implemented in the codebase",
      ["feature_name", "search_paths"]⟩,
   ⟨"gemini_security_audit", "Perform security analysis of the codebase using Gemini",
      ["audit_type", "paths"]⟩,
   ⟨"gemini_architecture_analysis", "Analyze codebase architecture and patterns using Gemini",
      ["analysis_type", "paths"]⟩]

/-- The registered tool names, in the order of `handle_call_tool`'s
dispatch chain. -/
def toolNames : List String := toolRegistry.map fun t => t.name

/-- The `required` list a registered tool's schema declares. -/
def requiredArgs (name : String) : List String :=
  ((toolRegistry.find? fun t => t.name == name).map fun t => t.required).getD []

/-- The security-audit template table (`__init__.py` lines 500-506),
modelled as the dict's lookup function. -/
def audit_prompts (key : String) : Option String :=
  if key = "sql_injection" then
    some "Analyze this code for SQL injection vulnerabilities. Show how user inputs are sanitized and whether prepared statements or ORMs are used properly."
  else if key = "xss" then
    some "Check for Cross-Site Scripting (XSS) vulnerabilities. Look for proper input sanitization and output encoding."
  else if key = "auth" then
    some "Analyze the authentication and authorization implementation. Check for JWT handling, session management, and access controls."
  else if key = "general" then
    some "Perform a general security audit. Look for common vulnerabilities like hardcoded secrets, insecure configurations, and improper error handling."
  else if key = "input_validation" then
    some "Analyze input validation throughout the codebase. Check how user inputs are validated and sanitized."
  else none

/-- The architecture-analysis template table (`__init__.py` lines
534-540), modelled as the dict's lookup function. -/
def analysis_prompts (key : String) : Option String :=
  if key = "overview" then
    some "Provide a high-level overview of this codebase architecture. Describe the main components, layers, and how they interact."
  else if key = "dependencies" then
    some "Analyze the dependencies in this codebase. Show the dependency graph and identify any potential issues or circular dependencies."
  else if key = "patterns" then
    some "Identify the architectural patterns and design patterns used in this codebase. Explain how they\x27re implemented."
  else if key = "structure" then
    some "Analyze the project structure and organization. Evaluate if it follows best practices and suggest improvements."
  else if key = "coupling" then
    some "Analyze the coupling between different modules and components. Identify tightly coupled areas that could be refactored."
  else none

/-- The per-tool first half of `handle_call_tool` (`__init__.py` lines
418-560): extract the tool's arguments in source order and assemble the
command vector and optional working directory that the branch hands to
`run_gemini_command`.  Each branch mirrors its Python counterpart; the
final fallback is unreachable for registered names because
`handle_call_tool` tests membership first. -/
def buildCommand (w : World) (name : String) (args : String → Option Value) :
    Except String (List String × Option String) :=
  if name = "gemini_analyze_files" then
    match getItem args "files" with
    | Except.error e => Except.error e
    | Except.ok filesV =>
      match getItem args "prompt" with
      | Except.error e => Except.error e
      | Except.ok promptV =>
        let wd := getWd args
        let file_args := (iterStrings filesV).map fun file => "@" ++ file
        match pyAddStr (String.intercalate " " file_args ++ " ") promptV with
        | Except.error e => Except.error e
        | Except.ok full_prompt => Except.ok (["gemini", "-p", full_prompt], wd)
  else if name = "gemini_analyze_directories" then
    match getItem args "directories" with
    | Except.error e => Except.error e
    | Except.ok dirsV =>
      match getItem args "prompt" with
      | Except.error e => Except.error e
      | Except.ok promptV =>
        let wd := getWd args
        let dir_args := (iterStrings dirsV).map fun directory => "@" ++ directory ++ "/"
        match pyAddStr (String.intercalate " " dir_args ++ " ") promptV with
        | Except.error e => Except.error e
        | Except.ok full_prompt => Except.ok (["gemini", "-p", full_prompt], wd)
  else if name = "gemini_analyze_all_files" then
    match getItem args "prompt" with
    | Except.error e => Except.error e
    | Except.ok promptV =>
      let wd := getWd args
      match promptV with
      | Value.str prompt => Except.ok (["gemini", "--all_files", "-p", prompt], wd)
      | Value.list _ => Except.error "TypeError: prompt must be a string"
  else if name = "gemini_verify_implementation" then
    match getItem args "feature_name" with
    | Except.error e => Except.error e
    | Except.ok featureV =>
      match getItem args "search_paths" with
      | Except.error e => Except.error e
      | Except.ok searchV =>
        let verification_prompt := args "verification_prompt"
        let wd := getWd args
        let prompt : Value :=
          if pyTruthyOpt verification_prompt then verification_prompt.getD (Value.str "")
          else Value.str ("Has " ++ pyStrOf featureV ++ " been implemented in this codebase? Show me the relevant files and functions if it exists, or confirm if it\x27s missing.")
        let path_args := (iterStrings searchV).map fun path =>
          if w.isDir path then "@" ++ path ++ "/" else "@" ++ path
        match pyAddStr (String.intercalate " " path_args ++ " ") prompt with
        | Except.error e => Except.error e
        | Except.ok full_prompt => Except.ok (["gemini", "-p", full_prompt], wd)
  else if name = "gemini_security_audit" then
    match getItem args "audit_type" with
    | Except.error e => Except.error e
    | Except.ok auditV =>
      match getItem args "paths" with
      | Except.error e => Except.error e
      | Except.ok pathsV =>
        let wd := getWd args
        match auditV with
        | Value.list _ => Except.error "TypeError: unhashable type"
        | Value.str audit_type =>
          let prompt := (audit_prompts audit_type).getD ((audit_prompts "general").getD "")
          let path_args := (iterStrings pathsV).map fun path =>
            if w.isDir path then "@" ++ path ++ "/" else "@" ++ path
          let full_prompt := String.intercalate " " path_args ++ " " ++ prompt
          Except.ok (["gemini", "-p", full_prompt], wd)
  else if name = "gemini_architecture_analysis" then
    match getItem args "analysis_type" with
    | Except.error e => Except.error e
    | Except.ok analysisV =>
      match getItem args "paths" with
      | Except.error e => Except.error e
      | Except.ok pathsV =>
        let wd := getWd args
        match analysisV with
        | Value.list _ => Except.error "TypeError: unhashable type"
        | Value.str analysis_type =>
          let prompt := (analysis_prompts analysis_type).getD ((analysis_prompts "overview").getD "")
          let path_args := (iterStrings pathsV).map fun path =>
            if w.isDir path then "@" ++ path ++ "/" else "@" ++ path
          let full_prompt := String.intercalate " " path_args ++ " " ++ prompt
          Except.ok (["gemini", "-p", full_prompt], wd)
  else Except.error ("unknown tool: " ++ name)

/-- Embedding of `handle_call_tool` (`__init__.py` lines 414-563): for a
registered tool, build the command, run it, and translate the execution
result exactly as every Python branch does (`"Error: " + stderr` on
nonzero exit, stdout verbatim on zero); an unregistered name yields the
literal `Unknown tool` text.  The second component is the spawn trace of
the underlying executor ( `[]` when nothing was spawned). -/
def handle_call_tool (w : World) (name : String) (args : String → Option Value) :
    Except String String × List (List String) :=
  if name ∈ toolNames then
    match buildCommand w name args with
    | Except.error e => (Except.error e, [])
    | Except.ok (cmd, wd) =>
      let r := run_gemini_command w cmd wd
      ((if r.1.2.2 ≠ 0 then Except.ok ("Error: " ++ r.1.2.1) else Except.ok r.1.1), r.2)
  else (Except.ok ("Unknown tool: " ++ name), [])

/-- One argument of a prompt-catalog entry (`PROMPTS`, `__init__.py`
lines 27-103). -/
structure PromptArgument where
  name : String
  description : String
  required : Bool
deriving DecidableEq

/-- One prompt-catalog entry. -/
structure PromptDefinition where
  name : String
  description : String
  arguments : List PromptArgument
deriving DecidableEq

/-- The `PROMPTS` dict, in insertion order. -/
def PROMPTS : List PromptDefinition :=
  [⟨"analyze_files", "Analyze specific files using Gemini\x27s large context window",
     [⟨"files", "Comma-separated list of file paths to analyze", true⟩,
      ⟨"prompt", "Custom analysis prompt (optional, defaults to comprehensive analysis)", false⟩]⟩,
   ⟨"security_audit", "Perform security audit on specified paths",
     [⟨"audit_type", "Type of audit: sql_injection, xss, auth, general, input_validation", true⟩,
      ⟨"paths", "Comma-separated list of paths to audit", true⟩]⟩,
   ⟨"architecture_analysis", "Analyze codebase architecture and patterns",
     [⟨"analysis_type", "Type of analysis: overview, dependencies, patterns, structure, coupling", true⟩,
      ⟨"paths", "Comma-separated list of paths to analyze", true⟩]⟩,
   ⟨"verify_feature", "Verify if a specific feature is implemented in the codebase",
     [⟨"feature_name", "Name of the feature to verify (e.g., \x27JWT authentication\x27, \x27rate limiting\x27)", true⟩,
      ⟨"search_paths", "Comma-separated list of paths to search (optional, defaults to current directory)", false⟩]⟩,
   ⟨"project_overview", "Get comprehensive overview of the entire project",
     [⟨"focus", "Optional focus area (e.g., \x27API architecture\x27, \x27data flow\x27, \x27security\x27)", false⟩]⟩]

/-- The prompt-catalog keys (`name in PROMPTS` checks dict keys). -/
def promptNames : List String := PROMPTS.map fun p => p.name

/-- Lower-case hexadecimal digit. -/
def hexDigit (n : Nat) : Char :=
  if n < 10 then Char.ofNat (48 + n) else Char.ofNat (87 + n)

/-- Four-digit lower-case hexadecimal rendering, as in a JSON `\uXXXX`
escape. -/
def hex4 (n : Nat) : String :=
  String.mk [hexDigit (n / 4096 % 16), hexDigit (n / 256 % 16), hexDigit (n / 16 % 16), hexDigit (n % 16)]

/-- `json.dumps` escaping of one character (default `ensure_ascii=True`
behaviour: short escapes for the usual control characters, `\uXXXX` for
other controls and all non-ASCII, surrogate pairs beyond the BMP). -/
def jsonEscapeChar (c : Char) : String :=
  if c = Char.ofNat 34 then "\\\""
  else if c = '\\' then "\\\\"
  else if c = '\n' then "\\n"
  else if c = '\r' then "\\r"
  else if c = '\t' then "\\t"
  else if c = Char.ofNat 8 then "\\b"
  else if c = Char.ofNat 12 then "\\f"
  else if c.toNat < 32 then "\\u" ++ hex4 c.toNat
  else if c.toNat < 128 then String.mk [c]
  else if c.toNat < 65536 then "\\u" ++ hex4 c.toNat
  else
    "\\u" ++ hex4 (55296 + (c.toNat - 65536) / 1024) ++ "\\u" ++ hex4 (56320 + (c.toNat - 65536) % 1024)

/-- `json.dumps` of a string. -/
def jsonStr (s : String) : String :=
  "\"" ++ String.join (s.data.map jsonEscapeChar) ++ "\""

/-- `json.dumps` of a list of strings (default separator `", "`). -/
def jsonList (ss : List String) : String :=
  "[" ++ String.intercalate ", " (ss.map jsonStr) ++ "]"

/-- One returned prompt message (`types.PromptMessage` with text
content). -/
structure PromptMessage where
  role : String
  text : String
deriving DecidableEq

/-- `types.GetPromptResult`: a description plus messages. -/
structure GetPromptResult where
  description : String
  messages : List PromptMessage
deriving DecidableEq

/-- Embedding of `handle_get_prompt` (`__init__.py` lines 270-377):
an unknown prompt name raises; each known prompt renders an instruction
message telling the caller which tool to invoke, with `json.dumps`-encoded
arguments; `analyze_files` raises when `files` is absent and
`verify_feature` raises when `feature_name` is absent or empty, while the
other prompts fall back to defaults. -/
def handle_get_prompt (name : String) (arguments : String → Option String) :
    Except String GetPromptResult :=
  if name ∉ promptNames then Except.error ("Unknown prompt: " ++ name)
  else if name = "analyze_files" then
    let files := match arguments "files" with
      | some s => s.splitOn ","
      | none => []
    let custom_prompt := (arguments "prompt").getD ""
    if files = [] then Except.error "Files argument is required"
    else
      let prompt_text :=
        if custom_prompt ≠ "" then
          "Analyze these files: " ++ String.intercalate ", " files ++
            "\n\nSpecific analysis request: " ++ custom_prompt
        else
          "Provide a comprehensive analysis of these files: " ++ String.intercalate ", " files ++
            "\n\nPlease explain:\n- Purpose and functionality of each file\n- Key components and their relationships\n- Code quality and patterns used\n- Any potential improvements or issues"
      Except.ok ⟨"Analyze files: " ++ String.intercalate ", " files,
        [⟨"user", "Use the gemini_analyze_files tool with files: " ++ jsonList files ++
            " and prompt: " ++ jsonStr prompt_text⟩]⟩
  else if name = "security_audit" then
    let audit_type := (arguments "audit_type").getD "general"
    let paths := match arguments "paths" with
      | some s => s.splitOn ","
      | none => ["."]
    Except.ok ⟨"Security audit (" ++ audit_type ++ ") for: " ++ String.intercalate ", " paths,
      [⟨"user", "Use the gemini_security_audit tool with audit_type: " ++ jsonStr audit_type ++
          " and paths: " ++ jsonList paths⟩]⟩
  else if name = "architecture_analysis" then
    let analysis_type := (arguments "analysis_type").getD "overview"
    let paths := match arguments "paths" with
      | some s => s.splitOn ","
      | none => ["."]
    Except.ok ⟨"Architecture analysis (" ++ analysis_type ++ ") for: " ++ String.intercalate ", " paths,
      [⟨"user", "Use the gemini_architecture_analysis tool with analysis_type: " ++ jsonStr analysis_type ++
          " and paths: " ++ jsonList paths⟩]⟩
  else if name = "verify_feature" then
    let feature_name := (arguments "feature_name").getD ""
    let search_paths :=
      if pyTruthyStrOpt (arguments "search_paths") then
        ((arguments "search_paths").getD ".").splitOn ","
      else ["."]
    if feature_name = "" then Except.error "Feature name is required"
    else
      Except.ok ⟨"Verify feature: " ++ feature_name,
        [⟨"user", "Use the gemini_verify_implementation tool with feature_name: " ++ jsonStr feature_name ++
            " and search_paths: " ++ jsonList search_paths⟩]⟩
  else if name = "project_overview" then
    let focus := (arguments "focus").getD ""
    let prompt_text :=
      if focus ≠ "" then
        "Provide a comprehensive overview of this entire project with a focus on: " ++ focus
      else
        "Provide a comprehensive overview of this entire project including architecture, main components, technologies used, and overall purpose."
    Except.ok ⟨"Project overview" ++ (if focus ≠ "" then " (focus: " ++ focus ++ ")" else ""),
      [⟨"user", "Use the gemini_analyze_all_files tool with prompt: " ++ jsonStr prompt_text⟩]⟩
  else Except.error ("Unknown prompt: " ++ name)

/-- The spec's Path Annotator: `@path/` exactly when the path names a
directory, `@path` otherwise.  This is also the inline annotation used by
the three probing tool handlers. -/
def annotate (isDir : String → Bool) (path : String) : String :=
  if isDir path then "@" ++ path ++ "/" else "@" ++ path

/-- Whether an `Except` is an error. -/
def isErr : Except String α → Bool
  | Except.error _ => true
  | Except.ok _ => false

/-- A world in which every path is a directory and both spawns succeed. -/
def Wdir : World := ⟨"/", SpawnOutcome.ok "" "" 0, fun _ _ => SpawnOutcome.ok "" "" 0, fun _ => true⟩

/-- A world in which no path is a directory, the probe succeeds and the
main command prints `out` and exits 0. -/
def Wok : World := ⟨"/", SpawnOutcome.ok "" "" 0, fun _ _ => SpawnOutcome.ok "out" "" 0, fun _ => false⟩

/-- A world in which the availability probe exits 1 (gemini not on the
search path). -/
def Wnofind : World := ⟨"/", SpawnOutcome.ok "" "" 1, fun _ _ => SpawnOutcome.ok "out" "" 0, fun _ => false⟩

/-- A world in which the main command fails with exit code 2 and stderr
`boom`. -/
def Wfail : World := ⟨"/", SpawnOutcome.ok "" "" 0, fun _ _ => SpawnOutcome.ok "ignored" "boom" 2, fun _ => false⟩

/-- A world in which spawning the probe raises an exception `boom`. -/
def WprobeExn : World := ⟨"/", SpawnOutcome.exn "boom", fun _ _ => SpawnOutcome.ok "" "" 0, fun _ => false⟩

/-- A world in which the probe succeeds but spawning the main command
raises an exception `boom`. -/
def WexecExn : World := ⟨"/", SpawnOutcome.ok "" "" 0, fun _ _ => SpawnOutcome.exn "boom", fun _ => false⟩

/-- Argument map for `gemini_analyze_files`. -/
def argsAF (files : List String) (prompt : String) : String → Option Value :=
  fun k => if k = "files" then some (Value.list files)
    else if k = "prompt" then some (Value.str prompt) else none

/-- Argument map for `gemini_analyze_directories`. -/
def argsAD (directories : List String) (prompt : String) : String → Option Value :=
  fun k => if k = "directories" then some (Value.list directories)
    else if k = "prompt" then some (Value.str prompt) else none

/-- Argument map for `gemini_verify_implementation`. -/
def argsVI (feature : String) (search_paths : List String) : String → Option Value :=
  fun k => if k = "feature_name" then some (Value.str feature)
    else if k = "search_paths" then some (Value.list search_paths) else none

/-- Argument map for `gemini_security_audit`. -/
def argsSA (audit : String) (paths : List String) : String → Option Value :=
  fun k => if k = "audit_type" then some (Value.str audit)
    else if k = "paths" then some (Value.list paths) else none

/-- Argument map for `gemini_architecture_analysis`. -/
def argsAA (analysis : String) (paths : List String) : String → Option Value :=
  fun k => if k = "analysis_type" then some (Value.str analysis)
    else if k = "paths" then some (Value.list paths) else none

/-- Argument map holding only a prompt, for `gemini_analyze_all_files`. -/
def argsP : String → Option Value :=
  fun k => if k = "prompt" then some (Value.str "X") else none

/-- The five registered tools that take a file/directory/path list. -/
def pathListTools : List String :=
  ["gemini_analyze_files", "gemini_analyze_directories", "gemini_verify_implementation",
   "gemini_security_audit", "gemini_architecture_analysis"]

/-- The canonical argument map handing the path list `paths` (and a string
`s` for the tool's other required argument) to a path-list tool. -/
def pathArgsFor (t : String) (paths : List String) (s : String) : String → Option Value :=
  if t = "gemini_analyze_files" then argsAF paths s
  else if t = "gemini_analyze_directories" then argsAD paths s
  else if t = "gemini_verify_implementation" then argsVI s paths
  else if t = "gemini_security_audit" then argsSA s paths
  else argsAA s paths

/-- Claim C1 as stated: for every non-empty path list handed to any of the
five path-list tools, the command's prompt starts with the Path Annotator
tokens (directory probe deciding the trailing separator) joined by single
spaces. -/
def ClaimC1 : Prop :=
  ∀ (w : World) (paths : List String) (s : String), paths ≠ [] →
    ∀ t ∈ pathListTools, ∀ cmd wd,
      buildCommand w t (pathArgsFor t paths s) = Except.ok (cmd, wd) →
      ∃ p, cmd = ["gemini", "-p", p] ∧
        List.isPrefixOf (String.intercalate " " (paths.map (annotate w.isDir)) ++ " ").data p.data = true

/-- C1 is false on the code: on a filesystem where `d` is a directory,
`gemini_analyze_files` still builds the token `@d`, not the Path
Annotator's `@d/`. -/
theorem C1_counterexample : ¬ ClaimC1 := by
  intro h
  obtain ⟨p, hp, hpre⟩ :=
    h Wdir ["d"] "X" (by decide) "gemini_analyze_files" (by decide) ["gemini", "-p", "@d X"] none rfl
  have hp2 : p = "@d X" := by simpa using hp.symm
  subst hp2
  exact absurd hpre (by decide)

/-- C1 (amended): only `gemini_verify_implementation`,
`gemini_security_audit` and `gemini_architecture_analysis` annotate path
entries via the Path Annotator; `gemini_analyze_files` always produces
`@path` and `gemini_analyze_directories` always produces `@path/`,
without consulting the filesystem.  In every case the tokens are joined
with a single space. -/
theorem C1_per_tool_annotation (w : World) (paths : List String) (s : String) :
    buildCommand w "gemini_analyze_files" (argsAF paths s) =
      Except.ok (["gemini", "-p", String.intercalate " " (paths.map fun f => "@" ++ f) ++ " " ++ s], none)
    ∧ buildCommand w "gemini_analyze_directories" (argsAD paths s) =
      Except.ok (["gemini", "-p", String.intercalate " " (paths.map fun d => "@" ++ d ++ "/") ++ " " ++ s], none)
    ∧ buildCommand w "gemini_verify_implementation" (argsVI s paths) =
      Except.ok (["gemini", "-p", String.intercalate " " (paths.map (annotate w.isDir)) ++ " " ++
        ("Has " ++ s ++ " been implemented in this codebase? Show me the relevant files and functions if it exists, or confirm if it\x27s missing.")], none)
    ∧ buildCommand w "gemini_security_audit" (argsSA s paths) =
      Except.ok (["gemini", "-p", String.intercalate " " (paths.map (annotate w.isDir)) ++ " " ++
        ((audit_prompts s).getD ((audit_prompts "general").getD ""))], none)
    ∧ buildCommand w "gemini_architecture_analysis" (argsAA s paths) =
      Except.ok (["gemini", "-p", String.intercalate " " (paths.map (annotate w.isDir)) ++ " " ++
        ((analysis_prompts s).getD ((analysis_prompts "overview").getD ""))], none) :=
  ⟨rfl, rfl, rfl, rfl, rfl⟩

/-- C2: dispatching `gemini_analyze_files` with files `a.py`, `b.py` and
prompt `X` builds exactly `["gemini", "-p", "@a.py @b.py X"]` (for any
world), and that is the command the executor receives. -/
theorem C2_file_analysis_command :
    (∀ w : World, buildCommand w "gemini_analyze_files" (argsAF ["a.py", "b.py"] "X") =
        Except.ok (["gemini", "-p", "@a.py @b.py X"], none))
    ∧ handle_call_tool Wok "gemini_analyze_files" (argsAF ["a.py", "b.py"] "X") =
        (Except.ok "out", [["which", "gemini"], ["gemini", "-p", "@a.py @b.py X"]]) :=
  ⟨fun _ => rfl, rfl⟩

/-- C3: when the availability probe exits nonzero, the executor returns
the synthetic not-found failure with exit code 1 and only the probe was
spawned. -/
theorem C3_probe_short_circuit (w : World) (args : List String) (wd : Option String)
    (o e : String) (rc : Int) (hprobe : w.probe = SpawnOutcome.ok o e rc) (hrc : rc ≠ 0) :
    run_gemini_command w args wd =
      (("", "Gemini CLI not found. Please install gemini CLI first.", 1), [["which", "gemini"]]) := by
  unfold run_gemini_command
  rw [hprobe]
  simp [hrc]

/-- C3 witness: a probe exiting 1 short-circuits a concrete call. -/
theorem C3_witness :
    run_gemini_command Wnofind ["gemini", "-p", "x"] none =
      (("", "Gemini CLI not found. Please install gemini CLI first.", 1), [["which", "gemini"]]) :=
  C3_probe_short_circuit Wnofind ["gemini", "-p", "x"] none "" "" 1 rfl (by decide)

/-- C4: for every registered tool call that reaches execution, a nonzero
exit code yields exactly `"Error: " ++ stderr` and a zero exit code yields
stdout verbatim. -/
theorem C4_exit_code_translation (w : World) (name : String) (args : String → Option Value)
    (cmd : List String) (wd : Option String) (hname : name ∈ toolNames)
    (hbuild : buildCommand w name args = Except.ok (cmd, wd)) :
    handle_call_tool w name args =
      ((if (run_gemini_command w cmd wd).1.2.2 ≠ 0
          then Except.ok ("Error: " ++ (run_gemini_command w cmd wd).1.2.1)
          else Except.ok (run_gemini_command w cmd wd).1.1),
        (run_gemini_command w cmd wd).2) := by
  unfold handle_call_tool
  rw [if_pos hname, hbuild]

/-- C4 witness: a main command failing with stderr `boom` and exit code 2
surfaces as `Error: boom`. -/
theorem C4_witness :
    handle_call_tool Wfail "gemini_analyze_all_files" argsP =
      (Except.ok "Error: boom", [["which", "gemini"], ["gemini", "--all_files", "-p", "X"]]) :=
  C4_exit_code_translation Wfail "gemini_analyze_all_files" argsP
    ["gemini", "--all_files", "-p", "X"] none (by decide) rfl

/-- C5: an unrecognized audit type resolves to the `general` security
template verbatim, and an unrecognized analysis type resolves to the
`overview` architecture template verbatim. -/
theorem C5_template_fallback :
    (∀ (w : World) (a : String) (paths : List String),
      a ∉ ["sql_injection", "xss", "auth", "general", "input_validation"] →
      buildCommand w "gemini_security_audit" (argsSA a paths) =
        Except.ok (["gemini", "-p", String.intercalate " " (paths.map (annotate w.isDir)) ++ " " ++
          "Perform a general security audit. Look for common vulnerabilities like hardcoded secrets, insecure configurations, and improper error handling."], none))
    ∧ (∀ (w : World) (a : String) (paths : List String),
      a ∉ ["overview", "dependencies", "patterns", "structure", "coupling"] →
      buildCommand w "gemini_architecture_analysis" (argsAA a paths) =
        Except.ok (["gemini", "-p", String.intercalate " " (paths.map (annotate w.isDir)) ++ " " ++
          "Provide a high-level overview of this codebase architecture. Describe the main components, layers, and how they interact."], none)) := by
  constructor
  · intro w a paths h
    simp only [List.mem_cons, List.not_mem_nil, or_false, not_or] at h
    obtain ⟨h1, h2, h3, h4, h5⟩ := h
    have e : buildCommand w "gemini_security_audit" (argsSA a paths) =
        Except.ok (["gemini", "-p", String.intercalate " " (paths.map (annotate w.isDir)) ++ " " ++
          ((audit_prompts a).getD ((audit_prompts "general").getD ""))], none) := rfl
    rw [e]
    have hl : audit_prompts a = none := by
      simp [audit_prompts, h1, h2, h3, h4, h5]
    rw [hl]
    rfl
  · intro w a paths h
    simp only [List.mem_cons, List.not_mem_nil, or_false, not_or] at h
    obtain ⟨h1, h2, h3, h4, h5⟩ := h
    have e : buildCommand w "gemini_architecture_analysis" (argsAA a paths) =
        Except.ok (["gemini", "-p", String.intercalate " " (paths.map (annotate w.isDir)) ++ " " ++
          ((analysis_prompts a).getD ((analysis_prompts "overview").getD ""))], none) := rfl
    rw [e]
    have hl : analysis_prompts a = none := by
      simp [analysis_prompts, h1, h2, h3, h4, h5]
    rw [hl]
    rfl

/-- C5 witness: the audit type `bogus` and the analysis type `bogus` fall
back to their tables' default entries on a concrete call. -/
theorem C5_witness :
    buildCommand Wok "gemini_security_audit" (argsSA "bogus" ["p"]) =
      Except.ok (["gemini", "-p", "@p Perform a general security audit. Look for common vulnerabilities like hardcoded secrets, insecure configurations, and improper error handling."], none)
    ∧ buildCommand Wok "gemini_architecture_analysis" (argsAA "bogus" ["p"]) =
      Except.ok (["gemini", "-p", "@p Provide a high-level overview of this codebase architecture. Describe the main components, layers, and how they interact."], none) :=
  ⟨C5_template_fallback.1 Wok "bogus" ["p"] (by decide),
   C5_template_fallback.2 Wok "bogus" ["p"] (by decide)⟩

/-- Claim C6 as stated: a spawn exception yields exit code 1, empty stdout
and the exception's message as stderr. -/
def ClaimC6 : Prop :=
  ∀ (w : World) (args : List String) (wd : Option String) (msg : String),
    (w.probe = SpawnOutcome.exn msg → (run_gemini_command w args wd).1 = ("", msg, 1))
    ∧ (∀ o e, w.probe = SpawnOutcome.ok o e 0 →
        w.exec args (resolveCwd w.cwd wd) = SpawnOutcome.exn msg →
        (run_gemini_command w args wd).1 = ("", msg, 1))

/-- C6 is false on the code: the exception message `boom` is reported as
stderr `Error running gemini command: boom`, not as `boom` itself. -/
theorem C6_counterexample : ¬ ClaimC6 := by
  intro h
  have h1 := (h WprobeExn ["gemini"] none "boom").1 rfl
  exact absurd h1 (by decide)

/-- C6 (amended): every spawn exception is caught and converted to a
result with exit code 1, empty stdout and stderr equal to the fixed prefix
`Error running gemini command: ` followed by the exception's message; the
executor is a total function, so no spawn failure propagates. -/
theorem C6_spawn_exception_result (w : World) (args : List String) (wd : Option String)
    (msg : String) :
    (w.probe = SpawnOutcome.exn msg →
      run_gemini_command w args wd =
        (("", "Error running gemini command: " ++ msg, 1), [["which", "gemini"]]))
    ∧ (∀ o e, w.probe = SpawnOutcome.ok o e 0 →
        w.exec args (resolveCwd w.cwd wd) = SpawnOutcome.exn msg →
        run_gemini_command w args wd =
          (("", "Error running gemini command: " ++ msg, 1), [["which", "gemini"], args])) := by
  constructor
  · intro hp
    unfold run_gemini_command
    rw [hp]
  · intro o e hp hx
    unfold run_gemini_command
    rw [hp]
    simp [hx]

/-- C6 witness: a probe exception and a main-spawn exception, both with
message `boom`, each produce the converted failure result. -/
theorem C6_witness :
    run_gemini_command WprobeExn ["gemini"] none =
      (("", "Error running gemini command: boom", 1), [["which", "gemini"]])
    ∧ run_gemini_command WexecExn ["gemini"] none =
      (("", "Error running gemini command: boom", 1), [["which", "gemini"], ["gemini"]]) :=
  ⟨(C6_spawn_exception_result WprobeExn ["gemini"] none "boom").1 rfl,
   (C6_spawn_exception_result WexecExn ["gemini"] none "boom").2 "" "" rfl rfl⟩

/-- C7: an unregistered tool name returns exactly `Unknown tool: <name>`
with nothing spawned, and raises no error. -/
theorem C7_unknown_tool (w : World) (name : String) (args : String → Option Value)
    (h : name ∉ toolNames) :
    handle_call_tool w name args = (Except.ok ("Unknown tool: " ++ name), []) := by
  unfold handle_call_tool
  rw [if_neg h]

/-- C7 witness: the unregistered name `foo`. -/
theorem C7_witness :
    handle_call_tool Wok "foo" (fun _ => none) = (Except.ok "Unknown tool: foo", []) :=
  C7_unknown_tool Wok "foo" (fun _ => none) (by decide)

/-- C8: an unrecognized prompt name makes `handle_get_prompt` raise
`Unknown prompt: <name>` instead of returning a payload. -/
theorem C8_unknown_prompt (name : String) (arguments : String → Option String)
    (h : name ∉ promptNames) :
    handle_get_prompt name arguments = Except.error ("Unknown prompt: " ++ name) := by
  unfold handle_get_prompt
  rw [if_pos h]

/-- C8 witness: the unrecognized prompt name `nope`. -/
theorem C8_witness :
    handle_get_prompt "nope" (fun _ => none) = Except.error "Unknown prompt: nope" :=
  C8_unknown_prompt "nope" (fun _ => none) (by decide)

/-- When the command build fails for a registered tool, the dispatcher
spawns nothing and propagates the failure. -/
theorem handle_call_err_of_build_err (w : World) (name : String) (args : String → Option Value)
    (h1 : name ∈ toolNames) (h2 : isErr (buildCommand w name args) = true) :
    (handle_call_tool w name args).2 = [] ∧ isErr (handle_call_tool w name args).1 = true := by
  unfold handle_call_tool
  rw [if_pos h1]
  cases hb : buildCommand w name args with
  | error e => simp [isErr]
  | ok v => rw [hb] at h2; simp [isErr] at h2

/-- C9: a registered tool call whose argument map lacks one of the tool's
schema-required arguments fails at dispatch time — the build of the
command vector errors out (a `KeyError`), nothing is ever spawned, and the
failure propagates out of the dispatcher. -/
theorem C9_missing_required_argument (w : World) (name : String) (args : String → Option Value)
    (k : String) (hname : name ∈ toolNames) (hk : k ∈ requiredArgs name)
    (hnone : args k = none) :
    isErr (buildCommand w name args) = true
    ∧ (handle_call_tool w name args).2 = []
    ∧ isErr (handle_call_tool w name args).1 = true := by
  have hb : isErr (buildCommand w name args) = true := by
    have hname2 : name = "gemini_analyze_files" ∨ name = "gemini_analyze_directories" ∨
        name = "gemini_analyze_all_files" ∨ name = "gemini_verify_implementation" ∨
        name = "gemini_security_audit" ∨ name = "gemini_architecture_analysis" := by
      simpa [toolNames, toolRegistry] using hname
    rcases hname2 with rfl | rfl | rfl | rfl | rfl | rfl
    · have hk2 : k = "files" ∨ k = "prompt" := by
        simpa [requiredArgs, toolRegistry] using hk
      rcases hk2 with rfl | rfl
      · simp [buildCommand, getItem, hnone, isErr]
      · cases hf : args "files" with
        | none => simp [buildCommand, getItem, hf, isErr]
        | some v => simp [buildCommand, getItem, hf, hnone, isErr]
    · have hk2 : k = "directories" ∨ k = "prompt" := by
        simpa [requiredArgs, toolRegistry] using hk
      rcases hk2 with rfl | rfl
      · simp [buildCommand, getItem, hnone, isErr]
      · cases hf : args "directories" with
        | none => simp [buildCommand, getItem, hf, isErr]
        | some v => simp [buildCommand, getItem, hf, hnone, isErr]
    · have hk2 : k = "prompt" := by
        simpa [requiredArgs, toolRegistry] using hk
      subst hk2
      simp [buildCommand, getItem, hnone, isErr]
    · have hk2 : k = "feature_name" ∨ k = "search_paths" := by
        simpa [requiredArgs, toolRegistry] using hk
      rcases hk2 with rfl | rfl
      · simp [buildCommand, getItem, hnone, isErr]
      · cases hf : args "feature_name" with
        | none => simp [buildCommand, getItem, hf, isErr]
        | some v => simp [buildCommand, getItem, hf, hnone, isErr]
    · have hk2 : k = "audit_type" ∨ k = "paths" := by
        simpa [requiredArgs, toolRegistry] using hk
      rcases hk2 with rfl | rfl
      · simp [buildCommand, getItem, hnone, isErr]
      · cases hf : args "audit_type" with
        | none => simp [buildCommand, getItem, hf, isErr]
        | some v => simp [buildCommand, getItem, hf, hnone, isErr]
    · have hk2 : k = "analysis_type" ∨ k = "paths" := by
        simpa [requiredArgs, toolRegistry] using hk
      rcases hk2 with rfl | rfl
      · simp [buildCommand, getItem, hnone, isErr]
      · cases hf : args "analysis_type" with
        | none => simp [buildCommand, getItem, hf, isErr]
        | some v => simp [buildCommand, getItem, hf, hnone, isErr]
  exact ⟨hb, handle_call_err_of_build_err w name args hname hb⟩

/-- C9 witness: calling `gemini_analyze_files` with an empty argument map
fails at dispatch time with nothing spawned. -/
theorem C9_witness :
    isErr (buildCommand Wok "gemini_analyze_files" (fun _ => none)) = true
    ∧ (handle_call_tool Wok "gemini_analyze_files" (fun _ => none)).2 = []
    ∧ isErr (handle_call_tool Wok "gemini_analyze_files" (fun _ => none)).1 = true :=
  C9_missing_required_argument Wok "gemini_analyze_files" (fun _ => none) "files"
    (by decide) (by decide) rfl

/-- C10: although the prompt catalog's schema marks `audit_type`/`paths`
(resp. `analysis_type`/`paths`) required, `security_audit` and
`architecture_analysis` never fail — a missing `audit_type` defaults to
`general`, a missing `analysis_type` to `overview`, missing `paths` to
`["."]` — and `project_overview` never fails either; only `analyze_files`
(missing `files`) and `verify_feature` (missing `feature_name`) raise. -/
theorem C10_prompt_defaults :
    ((PROMPTS.find? fun p => p.name == "security_audit").map fun p =>
        p.arguments.map fun a => (a.name, a.required)) =
      some [("audit_type", true), ("paths", true)]
    ∧ ((PROMPTS.find? fun p => p.name == "architecture_analysis").map fun p =>
        p.arguments.map fun a => (a.name, a.required)) =
      some [("analysis_type", true), ("paths", true)]
    ∧ (∀ arguments : String → Option String,
        isErr (handle_get_prompt "security_audit" arguments) = false)
    ∧ (∀ arguments : String → Option String,
        isErr (handle_get_prompt "architecture_analysis" arguments) = false)
    ∧ (∀ arguments : String → Option String,
        isErr (handle_get_prompt "project_overview" arguments) = false)
    ∧ (∀ arguments : String → Option String,
        arguments "audit_type" = none → arguments "paths" = none →
        handle_get_prompt "security_audit" arguments =
          Except.ok ⟨"Security audit (general) for: .",
            [⟨"user", "Use the gemini_security_audit tool with audit_type: \"general\" and paths: [\".\"]"⟩]⟩)
    ∧ (∀ arguments : String → Option String,
        arguments "analysis_type" = none → arguments "paths" = none →
        handle_get_prompt "architecture_analysis" arguments =
          Except.ok ⟨"Architecture analysis (overview) for: .",
            [⟨"user", "Use the gemini_architecture_analysis tool with analysis_type: \"overview\" and paths: [\".\"]"⟩]⟩)
    ∧ (∀ arguments : String → Option String, arguments "files" = none →
        handle_get_prompt "analyze_files" arguments = Except.error "Files argument is required")
    ∧ (∀ arguments : String → Option String, arguments "feature_name" = none →
        handle_get_prompt "verify_feature" arguments = Except.error "Feature name is required") := by
  refine ⟨rfl, rfl, fun arguments => rfl, fun arguments => rfl, fun arguments => rfl, ?_, ?_, ?_, ?_⟩
  · intro arguments ha hp
    unfold handle_get_prompt
    rw [ha, hp]
    rfl
  · intro arguments ha hp
    unfold handle_get_prompt
    rw [ha, hp]
    rfl
  · intro arguments hf
    unfold handle_get_prompt
    rw [hf]
    rfl
  · intro arguments hf
    unfold handle_get_prompt
    rw [hf]
    rfl

/-- C10 witness: concrete calls with an empty argument map. -/
theorem C10_witness :
    handle_get_prompt "security_audit" (fun _ => none) =
      Except.ok ⟨"Security audit (general) for: .",
        [⟨"user", "Use the gemini_security_audit tool with audit_type: \"general\" and paths: [\".\"]"⟩]⟩
    ∧ handle_get_prompt "analyze_files" (fun _ => none) =
      Except.error "Files argument is required"
    ∧ handle_get_prompt "verify_feature" (fun _ => none) =
      Except.error "Feature name is required" :=
  ⟨C10_prompt_defaults.2.2.2.2.2.1 (fun _ => none) rfl rfl,
   C10_prompt_defaults.2.2.2.2.2.2.2.1 (fun _ => none) rfl,
   C10_prompt_defaults.2.2.2.2.2.2.2.2 (fun _ => none) rfl⟩
